import Mathlib

/-!
Verification of the ARN-decomposition, classification and pagination logic of
`danpilch/awslist` (`src/main.go`) against its specification.

Strings are embedded as `List Char` (`GoStr`).  `strings.Split` with a
one-character separator is `goSplit`, `strings.Join` is `goJoin`, and
`strings.Replace(s, "arn:aws:", "", -1)` is `removeArnAws` (a fueled scan:
the fuel `s.length` always suffices because every step of Go's scan consumes
at least one character).  Go `*string` fields are `Option GoStr` (`none` =
nil pointer).  A Go runtime panic (slice/index out of range, nil-pointer
dereference) is modelled as `none` in an `Option` result.
-/

set_option autoImplicit false

/-- A Go string, as its list of characters. -/
abbrev GoStr := List Char

/-- Go `strings.Split(s, sep)` for a one-character separator `sep`:
splits around every occurrence of `sep`; `goSplit sep [] = [[]]`, and the
result is always non-empty, exactly as in Go. -/
def goSplit (sep : Char) : GoStr → List GoStr
  | [] => [[]]
  | c :: cs =>
    if c = sep then [] :: goSplit sep cs
    else
      match goSplit sep cs with
      | h :: t => (c :: h) :: t
      | [] => [[c]]

/-- Go `strings.Join(parts, sep)` for a one-character separator. -/
def goJoin (sep : Char) : List GoStr → GoStr
  | [] => []
  | [s] => s
  | s :: s' :: ss => s ++ sep :: goJoin sep (s' :: ss)

/-- The literal `"arn:aws:"` removed by `ServiceNameFromARN` (main.go line 48). -/
def arnAwsPat : GoStr := ("arn:aws:").data

/-- Fueled form of Go `strings.Replace(s, "arn:aws:", "", -1)`: scan left to
right; at each position, if the next 8 characters are `arn:aws:`, delete them
and continue after the occurrence (`c :: rest` minus 8 characters is
`rest.drop 7`), otherwise keep the character and advance by one.  The fuel
only bounds the number of scan steps; `removeArnAws` supplies `s.length`,
which always suffices. -/
def removeArnAwsGo : Nat → GoStr → GoStr
  | 0, s => s
  | _ + 1, [] => []
  | fuel + 1, c :: rest =>
    if arnAwsPat.isPrefixOf (c :: rest) then removeArnAwsGo fuel (rest.drop 7)
    else c :: removeArnAwsGo fuel rest

/-- Go `strings.Replace(arn, "arn:aws:", "", -1)` (main.go line 48). -/
def removeArnAws (s : GoStr) : GoStr := removeArnAwsGo s.length s

/-- Statement-side predicate: does `s` contain the substring `arn:aws:`?
(Used only in theorem hypotheses; not part of the program.) -/
def containsArnAws : GoStr → Bool
  | [] => false
  | c :: rest => arnAwsPat.isPrefixOf (c :: rest) || containsArnAws rest

/-- main.go lines 47–51: remove every occurrence of `arn:aws:`, split the
remainder on `:` and return the first element (Go `&sliced[0]`; the split is
never empty, mirrored here with `headD []`). -/
def ServiceNameFromARN (arn : GoStr) : GoStr :=
  (goSplit ':' (removeArnAws arn)).headD []

/-- main.go lines 55–59: split the ARN on `:`, take `slicedArn[5:]` and join
with `/`.  Go panics (slice bound out of range) when the split has fewer
than 5 elements; the panic is modelled as `none`. -/
def ShortArn (arn : GoStr) : Option GoStr :=
  if 5 ≤ (goSplit ':' arn).length then
    some (goJoin '/' ((goSplit ':' arn).drop 5))
  else none

/-- main.go lines 16–23: the `SingleResource` struct; each Go `*string`
field becomes `Option GoStr`. -/
structure SingleResource where
  Region : Option GoStr
  Service : Option GoStr
  Product : Option GoStr
  Details : Option GoStr
  ID : Option GoStr
  ARN : Option GoStr
deriving DecidableEq, Repr

/-- main.go lines 72–74: the generic strategy (method name kept with the
source's spelling `ConverToResource`). -/
def awsGeneric_ConverToResource (shortArn svc rgn : GoStr) : SingleResource :=
  { ARN := some shortArn, Region := some rgn, Service := some svc,
    Product := none, Details := none, ID := some shortArn }

/-- main.go lines 77–80: the EC2 strategy: `s := strings.Split(*shortArn, "/")`
then `Product: &s[0], ID: &s[1]`.  When the split has a single element,
Go's `s[1]` panics (index out of range), modelled as `none`. -/
def awsEC2_ConvertToResource (shortArn svc rgn : GoStr) : Option SingleResource :=
  match goSplit '/' shortArn with
  | s0 :: s1 :: _ =>
    some { ARN := some shortArn, Region := some rgn, Service := some svc,
           Product := some s0, Details := none, ID := some s1 }
  | _ => none

/-- main.go lines 83–86: the ECS strategy, identical to the EC2 one. -/
def awsECS_ConvertToResource (shortArn svc rgn : GoStr) : Option SingleResource :=
  match goSplit '/' shortArn with
  | s0 :: s1 :: _ =>
    some { ARN := some shortArn, Region := some rgn, Service := some svc,
           Product := some s0, Details := none, ID := some s1 }
  | _ => none

/-- main.go lines 92–106: shorten the ARN, then dispatch on the service
string (`ec2`, `ecs`, default generic).  A panic inside `ShortArn` or a
strategy propagates as `none`. -/
def ConvertArnToSingleResource (arn svc rgn : GoStr) : Option SingleResource :=
  match ShortArn arn with
  | none => none
  | some shortArn =>
    if svc = ("ec2").data then awsEC2_ConvertToResource shortArn svc rgn
    else if svc = ("ecs").data then awsECS_ConvertToResource shortArn svc rgn
    else some (awsGeneric_ConverToResource shortArn svc rgn)

/-- main.go lines 110–115: nil pointers render as the empty string. -/
def DerefNilPointerStrings : Option GoStr → GoStr
  | none => []
  | some s => s

/-- main.go lines 25–43: the data rows appended to the table, one per
resource, in order, with columns Region, Service, Product, ID (the header
and borders are terminal rendering, out of scope). -/
def PrettyPrintResources (resources : List SingleResource) : List (List GoStr) :=
  resources.map (fun r =>
    [DerefNilPointerStrings r.Region, DerefNilPointerStrings r.Service,
     DerefNilPointerStrings r.Product, DerefNilPointerStrings r.ID])

/-- The `GetResourcesInput` fields used by main.go (page size and optional
pagination token). -/
structure GetResourcesInput where
  ResourcesPerPage : Int
  PaginationToken : Option GoStr
deriving DecidableEq, Repr

/-- The `GetResourcesOutput` fields used by main.go: the list of resource
ARNs and the (possibly nil) next-page token. -/
structure GetResourcesOutput where
  ResourceTagMappingList : List GoStr
  PaginationToken : Option GoStr

/-- main.go lines 158–163: the inner loop of `main`: convert each returned
ARN (service name derived from the ARN itself) into a `SingleResource`;
a panic in any conversion aborts the program (`none`). -/
def processPage (region : GoStr) : List GoStr → Option (List SingleResource)
  | [] => some []
  | arn :: rest =>
    match ConvertArnToSingleResource arn (ServiceNameFromARN arn) region with
    | none => none
    | some r =>
      match processPage region rest with
      | none => none
      | some rs => some (r :: rs)

/-- main.go lines 132–169: the pagination loop of `main`.  State: the
current token (initially `""`), the accumulated resources and the log of
`GetResources` calls issued.  Faithful to the source, when the token is
empty the loop issues a `GetResources` request inside the empty-token
branch (line 142) whose result is immediately overwritten by the
unconditional request at line 153 with the same input — both are logged.
It stops when the response token is `""`; a nil response token would be a
nil-pointer dereference (line 165), modelled as `none`.  The fuel bounds
the number of iterations (`none` on exhaustion models non-termination). -/
def paginationLoop (provider : GetResourcesInput → GetResourcesOutput) (region : GoStr) :
    Nat → GoStr → List SingleResource → List GetResourcesInput →
    Option (List SingleResource × List GetResourcesInput)
  | 0, _, _, _ => none
  | fuel + 1, paginationToken, resources, calls =>
    let inp : GetResourcesInput :=
      if paginationToken.length = 0 then { ResourcesPerPage := 50, PaginationToken := none }
      else { ResourcesPerPage := 50, PaginationToken := some paginationToken }
    let calls1 := if paginationToken.length = 0 then calls ++ [inp] else calls
    let calls2 := calls1 ++ [inp]
    let out := provider inp
    match processPage region out.ResourceTagMappingList with
    | none => none
    | some newRecords =>
      match out.PaginationToken with
      | none => none
      | some nextTok =>
        if nextTok = [] then some (resources ++ newRecords, calls2)
        else paginationLoop provider region fuel nextTok (resources ++ newRecords) calls2

/-- The mock provider of the pagination claim: three pages with continuation
tokens `t1`, `t2`, `""`, one resource each. -/
def mockProvider (inp : GetResourcesInput) : GetResourcesOutput :=
  match inp.PaginationToken with
  | none =>
    { ResourceTagMappingList := [("arn:aws:s3:us-east-1:111122223333:bucket-a").data],
      PaginationToken := some (("t1").data) }
  | some tok =>
    if tok = ("t1").data then
      { ResourceTagMappingList := [("arn:aws:sqs:us-east-1:111122223333:queue-b").data],
        PaginationToken := some (("t2").data) }
    else if tok = ("t2").data then
      { ResourceTagMappingList := [("arn:aws:sns:us-east-1:111122223333:topic-c").data],
        PaginationToken := some [] }
    else
      { ResourceTagMappingList := [], PaginationToken := some [] }

/-- A record whose `Product` and `ID` are nil, for the rendering claim. -/
def sampleRecord : SingleResource :=
  { Region := some (("us-east-1").data), Service := some (("s3").data),
    Product := none, Details := none, ID := none,
    ARN := some (("my-bucket").data) }

/-- The one-row resource list built from `sampleRecord`. -/
def sampleResources : List SingleResource := [sampleRecord]

theorem goSplit_ne_nil (sep : Char) (s : GoStr) : goSplit sep s ≠ [] := by
  induction s with
  | nil => simp [goSplit]
  | cons c cs ih =>
    simp only [goSplit]
    split
    · simp
    · split
      · simp
      · simp

theorem goSplit_no_sep (sep : Char) (s : GoStr) (h : ∀ c ∈ s, c ≠ sep) :
    goSplit sep s = [s] := by
  induction s with
  | nil => simp [goSplit]
  | cons c cs ih =>
    have hc : c ≠ sep := h c (by simp)
    have hcs : ∀ x ∈ cs, x ≠ sep := fun x hx => h x (by simp [hx])
    simp only [goSplit, if_neg hc]
    rw [ih hcs]

theorem goSplit_append_sep (sep : Char) (p s : GoStr) (hp : ∀ c ∈ p, c ≠ sep) :
    goSplit sep (p ++ sep :: s) = p :: goSplit sep s := by
  induction p with
  | nil => simp [goSplit]
  | cons c p' ih =>
    have hc : c ≠ sep := hp c (by simp)
    have hp' : ∀ x ∈ p', x ≠ sep := fun x hx => hp x (by simp [hx])
    simp only [List.cons_append, goSplit, if_neg hc]
    rw [List.append_eq, ih hp']

theorem goSplit_goJoin (sep : Char) (parts : List GoStr) (hne : parts ≠ [])
    (h : ∀ l ∈ parts, ∀ c ∈ l, c ≠ sep) :
    goSplit sep (goJoin sep parts) = parts := by
  induction parts with
  | nil => exact absurd rfl hne
  | cons p ps ih =>
    cases ps with
    | nil => exact goSplit_no_sep sep p (h p (by simp))
    | cons q ps' =>
      have h1 : ∀ c ∈ p, c ≠ sep := h p (by simp)
      have h2 : ∀ l ∈ q :: ps', ∀ c ∈ l, c ≠ sep := fun l hl => h l (by simp [hl])
      show goSplit sep (p ++ sep :: goJoin sep (q :: ps')) = p :: q :: ps'
      rw [goSplit_append_sep sep p _ h1, ih (by simp) h2]

theorem goSplit_headD (sep : Char) (s : GoStr) :
    (goSplit sep s).headD [] = s.takeWhile (fun c => c != sep) := by
  induction s with
  | nil => simp [goSplit]
  | cons c cs ih =>
    by_cases hc : c = sep
    · simp [goSplit, hc]
    · simp only [goSplit, if_neg hc]
      cases hsplit : goSplit sep cs with
      | nil => exact absurd hsplit (goSplit_ne_nil sep cs)
      | cons h t =>
        rw [hsplit] at ih
        simp only [List.headD_cons] at ih
        simp [List.takeWhile_cons, bne_iff_ne, hc, ih]

theorem isPrefixOf_append_self (p t : GoStr) : p.isPrefixOf (p ++ t) = true := by
  induction p with
  | nil => simp [List.isPrefixOf]
  | cons a as ih => simp [List.isPrefixOf, ih]

theorem removeArnAwsGo_of_not_contains (fuel : Nat) (s : GoStr)
    (h : containsArnAws s = false) : removeArnAwsGo fuel s = s := by
  induction fuel generalizing s with
  | zero => rfl
  | succ f ih =>
    cases s with
    | nil => rfl
    | cons c rest =>
      rw [containsArnAws] at h
      simp only [Bool.or_eq_false_iff] at h
      simp only [removeArnAwsGo, h.1, Bool.false_eq_true, if_false]
      rw [ih rest h.2]

theorem removeArnAws_of_not_contains (s : GoStr) (h : containsArnAws s = false) :
    removeArnAws s = s :=
  removeArnAwsGo_of_not_contains s.length s h

theorem removeArnAwsGo_fuel (f : Nat) (g : Nat) (s : GoStr) (hf : s.length ≤ f)
    (hg : s.length ≤ g) : removeArnAwsGo f s = removeArnAwsGo g s := by
  induction f generalizing s g with
  | zero =>
    have hs : s = [] := List.eq_nil_of_length_eq_zero (Nat.le_zero.mp hf)
    subst hs
    cases g with
    | zero => rfl
    | succ g' => rfl
  | succ f' ih =>
    cases s with
    | nil =>
      cases g with
      | zero => rfl
      | succ g' => rfl
    | cons c rest =>
      cases g with
      | zero => simp at hg
      | succ g' =>
        have hf' : rest.length ≤ f' := by simpa using hf
        have hg' : rest.length ≤ g' := by simpa using hg
        by_cases hp : arnAwsPat.isPrefixOf (c :: rest) = true
        · have hd : (rest.drop 7).length ≤ rest.length := by
            rw [List.length_drop]
            omega
          simp only [removeArnAwsGo, hp, if_true]
          exact ih g' (rest.drop 7) (le_trans hd hf') (le_trans hd hg')
        · have hp' : arnAwsPat.isPrefixOf (c :: rest) = false := by
            exact Bool.eq_false_iff.mpr hp
          simp only [removeArnAwsGo, hp', Bool.false_eq_true, if_false]
          rw [ih g' rest hf' hg']

theorem removeArnAws_pat_append (t : GoStr) :
    removeArnAws (arnAwsPat ++ t) = removeArnAws t := by
  have hlen : (arnAwsPat ++ t).length = t.length + 7 + 1 := by
    simp [arnAwsPat]
  show removeArnAwsGo (arnAwsPat ++ t).length (arnAwsPat ++ t) = removeArnAws t
  rw [hlen]
  have hpre : arnAwsPat.isPrefixOf
      ('a' :: 'r' :: 'n' :: ':' :: 'a' :: 'w' :: 's' :: ':' :: t) = true :=
    isPrefixOf_append_self arnAwsPat t
  show removeArnAwsGo (t.length + 7 + 1)
      ('a' :: 'r' :: 'n' :: ':' :: 'a' :: 'w' :: 's' :: ':' :: t) = removeArnAws t
  simp only [removeArnAwsGo, hpre, if_true]
  show removeArnAwsGo (t.length + 7) t = removeArnAws t
  exact removeArnAwsGo_fuel (t.length + 7) t.length t (by omega) (le_refl _)

/-- Claim C1 is false on the code at two concrete inputs of the stated form:
for a standard 6-segment ARN the short ARN is the resource segment itself
(the code drops the first five colon segments, `slicedArn[5:]`), not the
empty join of segments from index 6 onward; and for an ARN of the stated
form in which `arn:aws:` also occurs past the prefix (svc = `arn`,
region = `aws`), the extracted service is not `<svc>`. -/
theorem C1_counterexample :
    ShortArn (("arn:aws:ec2:us-east-1:123456789012:instance/i-0123abcd").data)
        = some (("instance/i-0123abcd").data) ∧
    (("instance/i-0123abcd").data : GoStr) ≠ [] ∧
    ServiceNameFromARN (("arn:aws:arn:aws:123456789012:x:y").data)
        = ("123456789012").data ∧
    (("123456789012").data : GoStr) ≠ ("arn").data := by
  refine ⟨by decide, by decide, by decide, by decide⟩

/-- Claim C1, amended: for every ARN of the form
`arn:aws:<svc>:<region>:<acct>:<rest...>` with at least 6 colon-delimited
segments, in which the substring `arn:aws:` occurs only as the leading
prefix, the decomposer yields service `<svc>` and short ARN equal to the
colon-delimited segments from index 5 onward (the first five segments
removed) joined with `/`. -/
theorem C1_amended (svc rgn acct : GoStr) (rest : List GoStr) (hne : rest ≠ [])
    (hsvc : ∀ c ∈ svc, c ≠ ':') (hrgn : ∀ c ∈ rgn, c ≠ ':')
    (hacct : ∀ c ∈ acct, c ≠ ':')
    (hrest : ∀ l ∈ rest, ∀ c ∈ l, c ≠ ':')
    (hnopat : containsArnAws
      (svc ++ ':' :: (rgn ++ ':' :: (acct ++ ':' :: goJoin ':' rest))) = false) :
    ServiceNameFromARN
        (arnAwsPat ++ (svc ++ ':' :: (rgn ++ ':' :: (acct ++ ':' :: goJoin ':' rest))))
      = svc ∧
    ShortArn
        (arnAwsPat ++ (svc ++ ':' :: (rgn ++ ':' :: (acct ++ ':' :: goJoin ':' rest))))
      = some (goJoin '/' rest) := by
  constructor
  · unfold ServiceNameFromARN
    rw [removeArnAws_pat_append, removeArnAws_of_not_contains _ hnopat,
      goSplit_append_sep ':' svc _ hsvc]
    simp
  · unfold ShortArn
    have e : arnAwsPat ++ (svc ++ ':' :: (rgn ++ ':' :: (acct ++ ':' :: goJoin ':' rest)))
        = ("arn").data ++ ':' :: (("aws").data ++ ':' ::
            (svc ++ ':' :: (rgn ++ ':' :: (acct ++ ':' :: goJoin ':' rest)))) := rfl
    rw [e, goSplit_append_sep ':' (("arn").data) _ (by decide),
      goSplit_append_sep ':' (("aws").data) _ (by decide),
      goSplit_append_sep ':' svc _ hsvc,
      goSplit_append_sep ':' rgn _ hrgn,
      goSplit_append_sep ':' acct _ hacct,
      goSplit_goJoin ':' rest hne hrest]
    have hlen : 5 ≤ (("arn").data :: ("aws").data :: svc :: rgn :: acct :: rest).length := by
      simp
    rw [if_pos hlen]
    simp [List.drop]

/-- Witness for `C1_amended` at svc `ec2`, region `us-east-1`,
account `123456789012`, resource `instance/i-0123abcd`. -/
theorem C1_amended_witness :
    ServiceNameFromARN
        (arnAwsPat ++ (("ec2").data ++ ':' :: (("us-east-1").data ++ ':' ::
          (("123456789012").data ++ ':' :: goJoin ':' [("instance/i-0123abcd").data]))))
      = ("ec2").data ∧
    ShortArn
        (arnAwsPat ++ (("ec2").data ++ ':' :: (("us-east-1").data ++ ':' ::
          (("123456789012").data ++ ':' :: goJoin ':' [("instance/i-0123abcd").data]))))
      = some (goJoin '/' [("instance/i-0123abcd").data]) :=
  C1_amended (("ec2").data) (("us-east-1").data) (("123456789012").data)
    [("instance/i-0123abcd").data] (by decide) (by decide) (by decide) (by decide)
    (by decide) (by decide)

/-- Claim C10: service-identifier extraction removes every occurrence of
`arn:aws:` before splitting; on any input containing no such occurrence it
does not fail and returns the portion of the input before its first colon
(`takeWhile (· != ':')`). -/
theorem C10_no_prefix_validation (s : GoStr) (h : containsArnAws s = false) :
    ServiceNameFromARN s = s.takeWhile (fun c => c != ':') := by
  unfold ServiceNameFromARN
  rw [removeArnAws_of_not_contains s h, goSplit_headD]

/-- Witness for `C10_no_prefix_validation`: an `aws-cn`-partition ARN does
not contain `arn:aws:`, and its extracted "service" is `arn`. -/
theorem C10_witness :
    containsArnAws (("arn:aws-cn:ec2:us-east-1:123456789012:instance/i-1").data) = false ∧
    ServiceNameFromARN (("arn:aws-cn:ec2:us-east-1:123456789012:instance/i-1").data)
      = ("arn").data := by
  refine ⟨by decide, ?_⟩
  rw [C10_no_prefix_validation _ (by decide)]
  decide

/-- Claim C2 (code bug, evaluated): on the mock provider with 3 pages and
continuation tokens `t1`, `t2`, `""`, the driver stops at the empty token
and accumulates the converted records of the three pages in order, but it
issues 4 `GetResources` requests, not 3: the first-page request (no token)
is issued twice — once inside the empty-token branch (line 142) and once
unconditionally (line 153). -/
theorem C2_pagination_behavior :
    paginationLoop mockProvider (("us-east-1").data) 10 [] [] [] =
      some ([{ Region := some (("us-east-1").data), Service := some (("s3").data),
               Product := none, Details := none,
               ID := some (("bucket-a").data), ARN := some (("bucket-a").data) },
             { Region := some (("us-east-1").data), Service := some (("sqs").data),
               Product := none, Details := none,
               ID := some (("queue-b").data), ARN := some (("queue-b").data) },
             { Region := some (("us-east-1").data), Service := some (("sns").data),
               Product := none, Details := none,
               ID := some (("topic-c").data), ARN := some (("topic-c").data) }],
            [{ ResourcesPerPage := 50, PaginationToken := none },
             { ResourcesPerPage := 50, PaginationToken := none },
             { ResourcesPerPage := 50, PaginationToken := some (("t1").data) },
             { ResourcesPerPage := 50, PaginationToken := some (("t2").data) }]) := by
  decide

/-- Claim C3 (code bug, evaluated): for an ARN with fewer than 6
colon-delimited segments the code does not fail with `InvalidArnFormat`:
with 3 segments `ShortArn` panics (slice bound out of range, modelled
`none`), and with exactly 5 segments it silently returns the empty
resource path. -/
theorem C3_short_arn_behavior :
    ShortArn (("a:b:c").data) = none ∧
    ShortArn (("a:b:c:d:e").data) = some [] := by
  refine ⟨by decide, by decide⟩

/-- Claim C4 (code bug, evaluated): for a short ARN with a single
`/`-segment, the ec2 and ecs strategies do not fail with
`MalformedResourcePath`: they panic on `s[1]` (index out of range,
modelled `none`). -/
theorem C4_single_segment_panics :
    awsEC2_ConvertToResource (("instance").data) (("ec2").data) (("us-east-1").data) = none ∧
    awsECS_ConvertToResource (("instance").data) (("ecs").data) (("us-east-1").data) = none := by
  refine ⟨by decide, by decide⟩

/-- Claim C5: whenever the short ARN splits on `/` into at least two
segments, both the ec2 and the ecs strategy produce the record with
`Product` the first segment and `ID` the second (`ARN`, `Region`,
`Service` filled in, `Details` nil). -/
theorem C5_ec2_ecs_split (shortArn svc rgn s0 s1 : GoStr) (t : List GoStr)
    (h : goSplit '/' shortArn = s0 :: s1 :: t) :
    awsEC2_ConvertToResource shortArn svc rgn =
      some { ARN := some shortArn, Region := some rgn, Service := some svc,
             Product := some s0, Details := none, ID := some s1 } ∧
    awsECS_ConvertToResource shortArn svc rgn =
      some { ARN := some shortArn, Region := some rgn, Service := some svc,
             Product := some s0, Details := none, ID := some s1 } := by
  unfold awsEC2_ConvertToResource awsECS_ConvertToResource
  rw [h]
  exact ⟨rfl, rfl⟩

/-- Witness for `C5_ec2_ecs_split` at the spec's example: service `ec2`,
short ARN `instance/i-0123abcd`. -/
theorem C5_witness :
    awsEC2_ConvertToResource (("instance/i-0123abcd").data) (("ec2").data) (("us-east-1").data) =
      some { ARN := some (("instance/i-0123abcd").data),
             Region := some (("us-east-1").data), Service := some (("ec2").data),
             Product := some (("instance").data), Details := none,
             ID := some (("i-0123abcd").data) } ∧
    awsECS_ConvertToResource (("instance/i-0123abcd").data) (("ec2").data) (("us-east-1").data) =
      some { ARN := some (("instance/i-0123abcd").data),
             Region := some (("us-east-1").data), Service := some (("ec2").data),
             Product := some (("instance").data), Details := none,
             ID := some (("i-0123abcd").data) } :=
  C5_ec2_ecs_split (("instance/i-0123abcd").data) (("ec2").data) (("us-east-1").data)
    (("instance").data) (("i-0123abcd").data) [] (by decide)

/-- Claim C6: for any service other than `ec2` and `ecs`, classification
dispatches to the generic strategy: `ID` (and `ARN`) is the entire short
ARN and `Product` stays nil. -/
theorem C6_generic_dispatch (arn svc rgn shortArn : GoStr)
    (hshort : ShortArn arn = some shortArn)
    (h1 : svc ≠ ("ec2").data) (h2 : svc ≠ ("ecs").data) :
    ConvertArnToSingleResource arn svc rgn
      = some (awsGeneric_ConverToResource shortArn svc rgn) ∧
    (awsGeneric_ConverToResource shortArn svc rgn).ID = some shortArn ∧
    (awsGeneric_ConverToResource shortArn svc rgn).Product = none := by
  refine ⟨?_, rfl, rfl⟩
  unfold ConvertArnToSingleResource
  rw [hshort]
  simp [h1, h2]

/-- Witness for `C6_generic_dispatch` at the spec's example: service `s3`,
short ARN `my-bucket`. -/
theorem C6_witness :
    ConvertArnToSingleResource (("arn:aws:s3:us-east-1:123456789012:my-bucket").data)
        (("s3").data) (("us-east-1").data)
      = some (awsGeneric_ConverToResource (("my-bucket").data) (("s3").data)
          (("us-east-1").data)) ∧
    (awsGeneric_ConverToResource (("my-bucket").data) (("s3").data)
        (("us-east-1").data)).ID = some (("my-bucket").data) ∧
    (awsGeneric_ConverToResource (("my-bucket").data) (("s3").data)
        (("us-east-1").data)).Product = none :=
  C6_generic_dispatch (("arn:aws:s3:us-east-1:123456789012:my-bucket").data)
    (("s3").data) (("us-east-1").data) (("my-bucket").data)
    (by decide) (by decide) (by decide)

/-- Claim C7: every record any of the three strategies produces through
classification has its `Region` and `Service` fields populated (with the
query region and the extracted service); records are never mutated after
construction — the source only ever constructs, appends and reads them,
which the pure embedding reflects. -/
theorem C7_region_service_populated (arn svc rgn : GoStr) (r : SingleResource)
    (h : ConvertArnToSingleResource arn svc rgn = some r) :
    r.Region = some rgn ∧ r.Service = some svc := by
  unfold ConvertArnToSingleResource at h
  split at h
  · cases h
  · split at h
    · unfold awsEC2_ConvertToResource at h
      split at h
      · injection h with h2
        subst h2
        exact ⟨rfl, rfl⟩
      · cases h
    · split at h
      · unfold awsECS_ConvertToResource at h
        split at h
        · injection h with h2
          subst h2
          exact ⟨rfl, rfl⟩
        · cases h
      · injection h with h2
        subst h2
        exact ⟨rfl, rfl⟩

/-- Witness for `C7_region_service_populated` on a generic-service record. -/
theorem C7_witness :
    (awsGeneric_ConverToResource (("my-bucket").data) (("s3").data)
        (("us-east-1").data)).Region = some (("us-east-1").data) ∧
    (awsGeneric_ConverToResource (("my-bucket").data) (("s3").data)
        (("us-east-1").data)).Service = some (("s3").data) :=
  C7_region_service_populated (("arn:aws:s3:us-east-1:123456789012:my-bucket").data)
    (("s3").data) (("us-east-1").data) _ (by decide)

/-- Claim C8: the rendered table has exactly one data row per collected
record, in collection order; each row holds the Region, Service, Product
and ID fields of its record, with a nil `Product` or `ID` rendering as the
empty string. -/
theorem C8_table_rows (rs : List SingleResource) (i : Nat) (r : SingleResource)
    (h : rs[i]? = some r) :
    (PrettyPrintResources rs).length = rs.length ∧
    (PrettyPrintResources rs)[i]? =
      some [DerefNilPointerStrings r.Region, DerefNilPointerStrings r.Service,
            DerefNilPointerStrings r.Product, DerefNilPointerStrings r.ID] ∧
    (r.Product = none → DerefNilPointerStrings r.Product = []) ∧
    (r.ID = none → DerefNilPointerStrings r.ID = []) := by
  refine ⟨by simp [PrettyPrintResources], ?_, ?_, ?_⟩
  · simp [PrettyPrintResources, List.getElem?_map, h]
  · intro hp
    rw [hp]
    rfl
  · intro hp
    rw [hp]
    rfl

/-- Witness for `C8_table_rows` on a one-record list whose `Product` and
`ID` are nil. -/
theorem C8_witness :
    (PrettyPrintResources sampleResources).length = sampleResources.length ∧
    (PrettyPrintResources sampleResources)[0]? =
      some [DerefNilPointerStrings sampleRecord.Region,
            DerefNilPointerStrings sampleRecord.Service,
            DerefNilPointerStrings sampleRecord.Product,
            DerefNilPointerStrings sampleRecord.ID] ∧
    (sampleRecord.Product = none →
      DerefNilPointerStrings sampleRecord.Product = []) ∧
    (sampleRecord.ID = none →
      DerefNilPointerStrings sampleRecord.ID = []) :=
  C8_table_rows sampleResources 0 sampleRecord (by decide)

/-- Claim C9: classification is deterministic and idempotent — two
classifications of the same ARN (same service, same region) yield
structurally identical records, field by field. -/
theorem C9_idempotent (arn svc rgn : GoStr) (r r' : SingleResource)
    (h : ConvertArnToSingleResource arn svc rgn = some r)
    (h' : ConvertArnToSingleResource arn svc rgn = some r') :
    r.Region = r'.Region ∧ r.Service = r'.Service ∧ r.Product = r'.Product ∧
    r.Details = r'.Details ∧ r.ID = r'.ID ∧ r.ARN = r'.ARN := by
  rw [h] at h'
  injection h' with h2
  subst h2
  exact ⟨rfl, rfl, rfl, rfl, rfl, rfl⟩

/-- Witness for `C9_idempotent` on a concrete classification. -/
theorem C9_witness :
    (awsGeneric_ConverToResource (("my-bucket").data) (("s3").data)
        (("us-east-1").data)).Region
      = (awsGeneric_ConverToResource (("my-bucket").data) (("s3").data)
        (("us-east-1").data)).Region ∧
    (awsGeneric_ConverToResource (("my-bucket").data) (("s3").data)
        (("us-east-1").data)).Service
      = (awsGeneric_ConverToResource (("my-bucket").data) (("s3").data)
        (("us-east-1").data)).Service ∧
    (awsGeneric_ConverToResource (("my-bucket").data) (("s3").data)
        (("us-east-1").data)).Product
      = (awsGeneric_ConverToResource (("my-bucket").data) (("s3").data)
        (("us-east-1").data)).Product ∧
    (awsGeneric_ConverToResource (("my-bucket").data) (("s3").data)
        (("us-east-1").data)).Details
      = (awsGeneric_ConverToResource (("my-bucket").data) (("s3").data)
        (("us-east-1").data)).Details ∧
    (awsGeneric_ConverToResource (("my-bucket").data) (("s3").data)
        (("us-east-1").data)).ID
      = (awsGeneric_ConverToResource (("my-bucket").data) (("s3").data)
        (("us-east-1").data)).ID ∧
    (awsGeneric_ConverToResource (("my-bucket").data) (("s3").data)
        (("us-east-1").data)).ARN
      = (awsGeneric_ConverToResource (("my-bucket").data) (("s3").data)
        (("us-east-1").data)).ARN :=
  C9_idempotent (("arn:aws:s3:us-east-1:123456789012:my-bucket").data)
    (("s3").data) (("us-east-1").data) _ _ (by decide) (by decide)
